import Mathlib

/-!
Verification of the task-manager client against its specification.

The repository is a React/Firebase task tracker. The logic the claims
concern is embedded shallowly below:

* `Task`                        — `src/types/Task.ts`
* `taskMatchesFilters`,
  `filteredTasks`              — the `filteredTasks` combinator in the
                                  `TaskManager` dashboard component
* `NotificationState`,
  `showNotification`,
  `fireTimeout`, `runNotif`    — the dashboard's transient-notification
                                  mechanism (`setNotification` plus an
                                  un-cancelled `setTimeout` of 3000 ms)
* `titleErrorOf`, `descriptionErrorOf`, `dueDateErrorOf`,
  `validateForm`, `validateTask` — the create-form and edit-mode
                                  validation in `TaskForm.tsx` / `TaskCard.tsx`
* `registerSubmit`             — the pre-network checks of
                                  `Register.tsx`'s submit handler
* `loginErrorMessage`,
  `registerErrorMessage`       — the error-message translation in
                                  `Login.tsx` / `Register.tsx`
* `tasksEffect`, `addTask`     — the subscription effect and the add
                                  operation of the `useTasks` hook

All definitions are executable; the JavaScript string operations
(`includes`, `toLowerCase`, `trim`) are modelled on the character lists
underlying Lean strings.
-/

namespace TaskApp

/-- JavaScript `String.prototype.includes` on character lists: `needle`
occurs contiguously inside `hay` (the empty needle always matches). -/
def hasSub : List Char → List Char → Bool
  | [], needle => needle.isEmpty
  | c :: t, needle => needle.isPrefixOf (c :: t) || hasSub t needle

/-- JavaScript `s.includes(q)` for Lean strings. -/
def jsIncludes (s q : String) : Bool :=
  hasSub s.data q.data

/-- JavaScript `s.toLowerCase()` (ASCII case mapping, as in Lean's
`Char.toLower`), computed on the underlying character list so that the
kernel can evaluate it. -/
def jsToLower (s : String) : String :=
  ⟨s.data.map Char.toLower⟩

/-- JavaScript `s.trim()`: strip whitespace from both ends, computed on
the underlying character list. -/
def jsTrim (s : String) : String :=
  ⟨((s.data.dropWhile Char.isWhitespace).reverse.dropWhile Char.isWhitespace).reverse⟩

/-- The `Task` record of `src/types/Task.ts`.  `priority` is one of
`"low" | "medium" | "high"`; it is kept as a string because the filter
combinator compares it with the (string-valued) priority filter. -/
structure Task where
  id : String
  title : String
  description : String
  category : String
  priority : String
  dueDate : String
  completed : Bool
deriving DecidableEq, Repr

/-- The free-text predicate of the dashboard's filter: case-insensitive
substring match of the query against the task's title or description
(`title.toLowerCase().includes(query)` with `query = searchQuery.toLowerCase()`). -/
def matchesText (searchQuery : String) (task : Task) : Bool :=
  jsIncludes (jsToLower task.title) (jsToLower searchQuery) ||
    jsIncludes (jsToLower task.description) (jsToLower searchQuery)

/-- The per-task predicate of `filteredTasks` in the `TaskManager`
dashboard, with the source's early-return structure: completion status,
then category, then priority each exclude the task outright; only then,
if the search query is non-empty, the free-text match decides, and the
default is acceptance. -/
def taskMatchesFilters (filter categoryFilter priorityFilter searchQuery : String)
    (task : Task) : Bool :=
  if filter = "completed" ∧ task.completed = false then false
  else if filter = "active" ∧ task.completed = true then false
  else if categoryFilter ≠ "all" ∧ task.category ≠ categoryFilter then false
  else if priorityFilter ≠ "all" ∧ task.priority ≠ priorityFilter then false
  else if searchQuery ≠ "" then matchesText searchQuery task
  else true

/-- `filteredTasks` of the `TaskManager` dashboard: `tasks.filter(...)`. -/
def filteredTasks (filter categoryFilter priorityFilter searchQuery : String)
    (tasks : List Task) : List Task :=
  tasks.filter (taskMatchesFilters filter categoryFilter priorityFilter searchQuery)

/-- A concrete task used to exercise the filter combinator: it matches
the text query `"milk"` but its category is `"Work"`. -/
def exTask : Task :=
  { id := "1", title := "Buy milk", description := "Get milk from the store",
    category := "Work", priority := "low", dueDate := "2025-01-01", completed := false }

/-- The dashboard's notification sub-state: the currently visible
notification (message together with a success flag; a single React state
variable, hence at most one at a time) and the deadlines of every
`setTimeout` callback scheduled by `showNotification` that has not yet
fired.  The source never calls `clearTimeout`, so deadlines are only
ever removed by firing. -/
structure NotificationState where
  notification : Option (String × Bool)
  pending : List Nat
deriving DecidableEq, Repr

/-- `showNotification(message, type)` called at time `now`: it replaces
the visible notification and schedules `setTimeout(() => setNotification(null), 3000)`,
i.e. adds the deadline `now + 3000` to the pending timeouts.  No
previously scheduled timeout is cancelled. -/
def showNotification (now : Nat) (message : String) (success : Bool)
    (s : NotificationState) : NotificationState :=
  { notification := some (message, success), pending := s.pending ++ [now + 3000] }

/-- The event-loop delivering a scheduled timeout with deadline `d`: the
callback `() => setNotification(null)` clears whatever notification is
visible, unconditionally. -/
def fireTimeout (s : NotificationState) (d : Nat) : NotificationState :=
  if d ∈ s.pending then { notification := none, pending := s.pending.erase d } else s

/-- An event of the notification sub-system: a `showNotification` call at
a given time, or the event loop firing the timeout scheduled for `d`. -/
inductive NotifEvent where
  | show (now : Nat) (message : String) (success : Bool)
  | fire (deadline : Nat)
deriving DecidableEq, Repr

/-- Run a sequence of notification events from a starting state. -/
def runNotif (s : NotificationState) : List NotifEvent → NotificationState
  | [] => s
  | NotifEvent.show now msg ty :: rest => runNotif (showNotification now msg ty s) rest
  | NotifEvent.fire d :: rest => runNotif (fireTimeout s d) rest

/-- The title check shared by `TaskForm.validateForm` and
`TaskCard.validateTask`: required, and at least 3 characters after trim. -/
def titleErrorOf (title : String) : Option String :=
  if jsTrim title = "" then some "Title is required"
  else if (jsTrim title).length < 3 then some "Title must be at least 3 characters"
  else none

/-- The description check shared by `TaskForm.validateForm` and
`TaskCard.validateTask`: required, and at least 10 characters after trim. -/
def descriptionErrorOf (description : String) : Option String :=
  if jsTrim description = "" then some "Description is required"
  else if (jsTrim description).length < 10 then some "Description must be at least 10 characters"
  else none

/-- The due-date check of `TaskForm.validateForm` (create form only):
the JavaScript test `!dueDate` holds exactly for the empty string. -/
def dueDateErrorOf (dueDate : String) : Option String :=
  if dueDate = "" then some "Due date is required" else none

/-- `validateForm` of `TaskForm.tsx` (create form): accepts when the
`newErrors` object stays empty, i.e. when title, description and due
date all pass. -/
def validateForm (title description dueDate : String) : Bool :=
  (titleErrorOf title).isNone && (descriptionErrorOf description).isNone &&
    (dueDateErrorOf dueDate).isNone

/-- `validateTask` of `TaskCard.tsx` (edit mode): accepts when title and
description pass; the due date is not checked in edit mode. -/
def validateTask (title description : String) : Bool :=
  (titleErrorOf title).isNone && (descriptionErrorOf description).isNone

/-- Outcome of the pre-network phase of `Register.tsx`'s submit handler:
the error message set (if any) and whether `createUserWithEmailAndPassword`
was invoked. -/
structure RegisterResult where
  error : Option String
  calledService : Bool
deriving DecidableEq, Repr

/-- The client-side checks of `Register.tsx`'s `handleSubmit`, in source
order: the mismatch check runs first, then the length check; the
identity service is contacted only when both pass. -/
def registerSubmit (password confirmPassword : String) : RegisterResult :=
  if password ≠ confirmPassword then
    { error := some "Passwords do not match", calledService := false }
  else if password.length < 6 then
    { error := some "Password must be at least 6 characters long", calledService := false }
  else
    { error := none, calledService := true }

/-- The credential-failure test of `Login.tsx`: the raw identity-service
message contains one of the three credential error codes. -/
def isCredentialError (msg : String) : Bool :=
  jsIncludes msg "invalid-credential" || jsIncludes msg "user-not-found" ||
    jsIncludes msg "wrong-password"

/-- The rate-limiting test of `Login.tsx`: the raw identity-service
message contains the too-many-requests error code. -/
def isRateLimitError (msg : String) : Bool :=
  jsIncludes msg "too-many-requests"

/-- The message displayed by `Login.tsx` for an identity-service error
message `msg`: credential failures and rate limiting are rewritten to
fixed friendly messages, everything else is shown as received. -/
def loginErrorMessage (msg : String) : String :=
  if isCredentialError msg then "Invalid email or password. Please try again."
  else if isRateLimitError msg then "Too many failed attempts. Please try again later."
  else msg

/-- The message displayed by `Register.tsx` for an identity-service
error message: `setError(err.message)`, verbatim. -/
def registerErrorMessage (msg : String) : String :=
  msg

/-- The state of the `useTasks` hook: the cached task list, the loading
flag and the last error message. -/
structure TasksState where
  tasks : List Task
  loading : Bool
  error : Option String
deriving DecidableEq, Repr

/-- The body of the `useEffect` in `useTasks.ts`, run when the user
identity changes.  Returns the new hook state together with the owner
identifier of the live-query subscription it opens (`none` when it opens
none).  With no user it clears the tasks, stops loading and returns
early — in particular it leaves `error` untouched; with a user it resets
`error` and subscribes to `where('userId', '==', user.uid)` (tasks and
loading are then only changed by the snapshot callbacks). -/
def tasksEffect (user : Option String) (s : TasksState) : TasksState × Option String :=
  match user with
  | none => ({ tasks := [], loading := false, error := s.error }, none)
  | some uid => ({ tasks := s.tasks, loading := s.loading, error := none }, some uid)

/-- The snapshot-success callback of the live query: replaces the whole
task list and stops loading. -/
def onSnapshotNext (docs : List Task) (s : TasksState) : TasksState :=
  { tasks := docs, loading := false, error := s.error }

/-- The snapshot-error callback of the live query: fixed message, stop
loading. -/
def onSnapshotError (s : TasksState) : TasksState :=
  { tasks := s.tasks, loading := false, error := some "Failed to load tasks. Please refresh the page." }

/-- A JavaScript value as far as the task records are concerned. -/
inductive JsVal where
  | str (s : String)
  | bool (b : Bool)
deriving DecidableEq, Repr

/-- A JavaScript object as an ordered list of key/value fields. -/
abbrev JsObj := List (String × JsVal)

/-- Read a field of a JavaScript object (first occurrence of the key). -/
def getField : JsObj → String → Option JsVal
  | [], _ => none
  | (k', v') :: rest, k => if k' = k then some v' else getField rest k

/-- Set a field of a JavaScript object: overwrite the existing key in
place, or append it — the semantics of `{ ...task, key: value }` for the
keys written after the spread. -/
def setField : JsObj → String → JsVal → JsObj
  | [], k, v => [(k, v)]
  | (k', v') :: rest, k, v =>
    if k' = k then (k, v) :: rest else (k', v') :: setField rest k v

/-- `addTask` of `useTasks.ts`: with no user it throws
`"User not authenticated"` and submits nothing; with user `uid` it
submits `{ ...task, completed: false, userId: uid }` to the database. -/
def addTask (user : Option String) (task : JsObj) : Except String JsObj :=
  match user with
  | none => Except.error "User not authenticated"
  | some uid =>
    Except.ok (setField (setField task "completed" (JsVal.bool false)) "userId" (JsVal.str uid))

/-- The create-form state of `TaskForm.tsx`: the five field values and
the `errors` record (list of field-name/message pairs). -/
structure FormState where
  title : String
  description : String
  category : String
  priority : String
  dueDate : String
  errors : List (String × String)
deriving DecidableEq, Repr

/-- The `newErrors` object computed by `TaskForm.validateForm` for a
form state. -/
def formErrors (s : FormState) : List (String × String) :=
  (match titleErrorOf s.title with | some e => [("title", e)] | none => []) ++
    (match descriptionErrorOf s.description with | some e => [("description", e)] | none => []) ++
    (match dueDateErrorOf s.dueDate with | some e => [("dueDate", e)] | none => [])

/-- The initial (and post-reset) form state of `TaskForm.tsx`: empty
title and description, category `"Personal"`, priority `"medium"`, due
date the current date, no errors. -/
def initialFormState (today : String) : FormState :=
  { title := "", description := "", category := "Personal", priority := "medium",
    dueDate := today, errors := [] }

/-- `handleSubmit` of `TaskForm.tsx`.  `resolved` records whether the
awaited `onSubmit` promise resolved.  Validation always stores the fresh
`newErrors`; on failure it returns early.  When validation passes and
`onSubmit` resolves, every field is reset to its default and the errors
are cleared; when `onSubmit` rejects, the `catch` only logs, so all
field values are kept (the errors were already set to the empty record
by the passing validation). -/
def handleSubmit (today : String) (resolved : Bool) (s : FormState) : FormState :=
  let errs := formErrors s
  if errs.isEmpty then
    if resolved then initialFormState today
    else { s with errors := [] }
  else { s with errors := errs }

/-- A concrete valid form state, used to exercise `handleSubmit`. -/
def exFormState : FormState :=
  { title := "Test Task", description := "This is a test task description",
    category := "Work", priority := "high", dueDate := "2025-12-31", errors := [] }

/-! ### Supporting lemmas -/

/-- The title check passes exactly when the trimmed title has at least 3
characters (emptiness is subsumed). -/
theorem titleErrorOf_eq_none (t : String) :
    titleErrorOf t = none ↔ 3 ≤ (jsTrim t).length := by
  unfold titleErrorOf
  split_ifs with h1 h2
  · constructor
    · intro hcontra; simp at hcontra
    · intro hlen; rw [h1] at hlen; exact absurd hlen (by decide)
  · constructor
    · intro hcontra; simp at hcontra
    · intro hlen; omega
  · constructor
    · intro _; omega
    · intro _; rfl

/-- The description check passes exactly when the trimmed description
has at least 10 characters. -/
theorem descriptionErrorOf_eq_none (d : String) :
    descriptionErrorOf d = none ↔ 10 ≤ (jsTrim d).length := by
  unfold descriptionErrorOf
  split_ifs with h1 h2
  · constructor
    · intro hcontra; simp at hcontra
    · intro hlen; rw [h1] at hlen; exact absurd hlen (by decide)
  · constructor
    · intro hcontra; simp at hcontra
    · intro hlen; omega
  · constructor
    · intro _; omega
    · intro _; rfl

/-- The due-date check passes exactly for a non-empty due date. -/
theorem dueDateErrorOf_eq_none (dd : String) :
    dueDateErrorOf dd = none ↔ dd ≠ "" := by
  unfold dueDateErrorOf
  split_ifs with h <;> simp [h]

/-- Reading back the field just set yields the new value. -/
theorem getField_setField_self (o : JsObj) (k : String) (v : JsVal) :
    getField (setField o k v) k = some v := by
  induction o with
  | nil => simp [setField, getField]
  | cons hd tl ih =>
    obtain ⟨a, b⟩ := hd
    by_cases h : a = k
    · simp [setField, getField, h]
    · simp [setField, getField, h, ih]

/-- Setting one field leaves every other field unchanged. -/
theorem getField_setField_other (o : JsObj) (k q : String) (v : JsVal) (h : q ≠ k) :
    getField (setField o k v) q = getField o q := by
  induction o with
  | nil => simp [setField, getField, Ne.symm h]
  | cons hd tl ih =>
    obtain ⟨a, b⟩ := hd
    by_cases hak : a = k
    · subst hak
      simp [setField, getField, Ne.symm h]
    · by_cases haq : a = q
      · simp [setField, getField, hak, haq, h]
      · simp [setField, getField, hak, haq, ih]

/-! ### Claim theorems -/

/-- C1 (counterexample): the claim that a task matching a non-empty text
query is included in `filteredTasks` regardless of the status, category
and priority filters is false.  `exTask` matches the query `"milk"` but
is excluded when the category filter is `"Personal"` and its category is
`"Work"`: the category early-return runs before the search branch. -/
theorem c1_counterexample :
    ¬ (∀ (f c p q : String) (ts : List Task) (t : Task),
        q ≠ "" → matchesText q t = true → t ∈ ts →
        t ∈ filteredTasks f c p q ts) := by
  intro h
  have hmem : exTask ∈ filteredTasks "all" "Personal" "all" "milk" [exTask] :=
    h "all" "Personal" "all" "milk" [exTask] exTask (by decide) (by decide) (by simp)
  have hempty : filteredTasks "all" "Personal" "all" "milk" [exTask] = [] := by decide
  rw [hempty] at hmem
  exact List.not_mem_nil _ hmem

/-- C1 (amended): with a non-empty free-text query, a task is in the
output of `filteredTasks` exactly when it is in the input and passes the
status, category and priority filters AND the case-insensitive text
match — the free-text predicate does not bypass the other three, it
replaces only the default acceptance. -/
theorem c1_filter_conjoins_all_predicates (f c p q : String) (t : Task) (ts : List Task)
    (hq : q ≠ "") :
    t ∈ filteredTasks f c p q ts ↔
      t ∈ ts ∧ ¬(f = "completed" ∧ t.completed = false) ∧
        ¬(f = "active" ∧ t.completed = true) ∧
        (c = "all" ∨ t.category = c) ∧ (p = "all" ∨ t.priority = p) ∧
        matchesText q t = true := by
  rw [filteredTasks, List.mem_filter]
  unfold taskMatchesFilters
  split_ifs with h1 h2 h3 h4 <;> simp_all
  tauto

/-- C1 (witness for the amended theorem): `exTask` passes all four
predicates when the category filter is `"all"`, hence is included. -/
theorem c1_witness : exTask ∈ filteredTasks "all" "all" "all" "milk" [exTask] :=
  (c1_filter_conjoins_all_predicates "all" "all" "all" "milk" exTask [exTask]
    (by decide)).mpr (by decide)

/-- C2 (counterexample): the claim that showing a new notification
cancels the pending auto-dismiss timer of the previous one — so that a
notification shown at time `now` stays visible under any timer firing
before `now + 3000` — is false.  After `showNotification` at time 0 (a
pending deadline 3000) and `showNotification` at time 1000, the old
timer fires at 3000 < 1000 + 3000 and clears the newer notification. -/
theorem c2_counterexample :
    ¬ (∀ (s : NotificationState) (msg : String) (ty : Bool) (now d : Nat),
        d < now + 3000 →
        (fireTimeout (showNotification now msg ty s) d).notification = some (msg, ty)) := by
  intro h
  have hc :=
    h (showNotification 0 "Logged out successfully" true { notification := none, pending := [] })
      "Task completed!" true 1000 3000 (by decide)
  exact absurd hc (by decide)

/-- C2 (amended): at most one notification is visible at a time — a
`showNotification` call replaces the visible notification with the new
one — but it cancels nothing: it appends its own `now + 3000` deadline
while keeping every previously scheduled deadline pending, and the
firing of any pending deadline clears the visible notification
unconditionally, so an older notification's timer can clear a newer
notification before 3 seconds have elapsed from its display. -/
theorem c2_show_keeps_old_timers :
    (∀ (now : Nat) (msg : String) (ty : Bool) (s : NotificationState),
        (showNotification now msg ty s).notification = some (msg, ty) ∧
        (showNotification now msg ty s).pending = s.pending ++ [now + 3000]) ∧
    (∀ (s : NotificationState) (d : Nat), d ∈ s.pending →
        (fireTimeout s d).notification = none) :=
  ⟨fun _ _ _ _ => ⟨rfl, rfl⟩, fun s d hd => by simp [fireTimeout, hd]⟩

/-- C2 (witness): firing the sole pending deadline clears the visible
notification. -/
theorem c2_witness :
    (fireTimeout { notification := some ("Task completed!", true), pending := [3000] }
      3000).notification = none :=
  c2_show_keeps_old_timers.2
    { notification := some ("Task completed!", true), pending := [3000] } 3000 (by decide)

/-- C3 (counterexample): the claim that validation accepts exactly when
the trimmed title has ≥ 3 characters and the trimmed description ≥ 10
characters, for the create form as well as edit mode, is false for the
create form: with title `"abc"`, description `"0123456789"` and an empty
due date, both length conditions hold yet `validateForm` rejects,
because the create form also requires a due date. -/
theorem c3_counterexample :
    ¬ (∀ (title description dueDate : String),
        validateForm title description dueDate = true ↔
          3 ≤ (jsTrim title).length ∧ 10 ≤ (jsTrim description).length) := by
  intro h
  have hacc := (h "abc" "0123456789" "").mpr (by decide)
  exact absurd hacc (by decide)

/-- C3 (amended): edit-mode validation (`validateTask`) accepts exactly
when the trimmed title has at least 3 characters and the trimmed
description at least 10; create-form validation (`validateForm`)
additionally requires a non-empty due date. -/
theorem c3_validation_characterisation (title description dueDate : String) :
    (validateTask title description = true ↔
      3 ≤ (jsTrim title).length ∧ 10 ≤ (jsTrim description).length) ∧
    (validateForm title description dueDate = true ↔
      3 ≤ (jsTrim title).length ∧ 10 ≤ (jsTrim description).length ∧ dueDate ≠ "") := by
  constructor
  · simp [validateTask, Bool.and_eq_true, Option.isNone_iff_eq_none,
      titleErrorOf_eq_none, descriptionErrorOf_eq_none]
  · simp [validateForm, Bool.and_eq_true, Option.isNone_iff_eq_none,
      titleErrorOf_eq_none, descriptionErrorOf_eq_none, dueDateErrorOf_eq_none, and_assoc]

/-- C4: registration first checks password/confirmation equality — on
mismatch it reports "Passwords do not match" and contacts no service —
then the 6-character minimum — on failure it reports the length message
and contacts no service — and the identity service is called exactly
when both checks pass. -/
theorem c4_register_validation (p c : String) :
    (p ≠ c → registerSubmit p c =
      { error := some "Passwords do not match", calledService := false }) ∧
    (p = c → p.length < 6 → registerSubmit p c =
      { error := some "Password must be at least 6 characters long", calledService := false }) ∧
    ((registerSubmit p c).calledService = true ↔ p = c ∧ 6 ≤ p.length) := by
  refine ⟨fun h => by simp [registerSubmit, h], fun h hl => ?_, ?_⟩
  · subst h; simp [registerSubmit, hl]
  · unfold registerSubmit
    split_ifs with h1 h2 <;> simp_all

/-- C4 (witness): the spec's concrete scenario — password `"weak"` with
matching confirmation is rejected for length without a network call. -/
theorem c4_witness :
    registerSubmit "weak" "weak" =
      { error := some "Password must be at least 6 characters long", calledService := false } :=
  (c4_register_validation "weak" "weak").2.1 rfl (by decide)

/-- C5: when the identity subscription delivers `null`, the `useTasks`
effect yields an empty task list with `loading = false` and opens no
live-query subscription. -/
theorem c5_null_user_empty_no_subscription (s : TasksState) :
    (tasksEffect none s).1.tasks = [] ∧ (tasksEffect none s).1.loading = false ∧
      (tasksEffect none s).2 = none :=
  ⟨rfl, rfl, rfl⟩

/-- C6: `addTask` fails with the "User not authenticated" error (and
submits nothing) when no user is present; with user `uid` it submits the
caller's fields with `completed = false` and `userId = uid` merged in,
those two overriding any caller-supplied value and every other field
passed through unchanged. -/
theorem c6_addTask_merges_owner_and_completed (user : Option String) (task : JsObj) :
    (user = none → addTask user task = Except.error "User not authenticated") ∧
    (∀ uid, user = some uid →
      ∃ submitted, addTask user task = Except.ok submitted ∧
        getField submitted "completed" = some (JsVal.bool false) ∧
        getField submitted "userId" = some (JsVal.str uid) ∧
        ∀ k, k ≠ "completed" → k ≠ "userId" → getField submitted k = getField task k) := by
  refine ⟨fun h => by subst h; rfl, fun uid h => ?_⟩
  subst h
  refine ⟨setField (setField task "completed" (JsVal.bool false)) "userId" (JsVal.str uid),
    rfl, ?_, ?_, ?_⟩
  · rw [getField_setField_other _ _ _ _ (by decide)]
    exact getField_setField_self _ _ _
  · exact getField_setField_self _ _ _
  · intro k hk1 hk2
    rw [getField_setField_other _ _ _ _ hk2, getField_setField_other _ _ _ _ hk1]

/-- C6 (witness): with no user, `addTask` yields the unauthenticated
error. -/
theorem c6_witness :
    addTask none [("title", JsVal.str "New")] = Except.error "User not authenticated" :=
  (c6_addTask_merges_owner_and_completed none [("title", JsVal.str "New")]).1 rfl

/-- C7: the login form rewrites identity-service messages containing a
credential error code to one fixed friendly message, messages containing
the rate-limit code (and no credential code) to a second fixed message,
and displays every other message verbatim; registration errors are
always displayed verbatim. -/
theorem c7_login_error_translation (msg : String) :
    (isCredentialError msg = true →
      loginErrorMessage msg = "Invalid email or password. Please try again.") ∧
    (isCredentialError msg = false → isRateLimitError msg = true →
      loginErrorMessage msg = "Too many failed attempts. Please try again later.") ∧
    (isCredentialError msg = false → isRateLimitError msg = false →
      loginErrorMessage msg = msg) ∧
    registerErrorMessage msg = msg := by
  refine ⟨fun h => by simp [loginErrorMessage, h],
    fun h1 h2 => by simp [loginErrorMessage, h1, h2],
    fun h1 h2 => by simp [loginErrorMessage, h1, h2], rfl⟩

/-- C7 (witness): a wrong-password message is rewritten to the friendly
credential message. -/
theorem c7_witness :
    loginErrorMessage "Firebase: Error (auth/wrong-password)." =
      "Invalid email or password. Please try again." :=
  (c7_login_error_translation "Firebase: Error (auth/wrong-password).").1 (by decide)

/-- C8: for every task list and filter combination, `filteredTasks`
returns a sublist of the input (a subset in the original relative
order; the embedding is pure, so the input is never mutated), and the
operation is idempotent. -/
theorem c8_filter_sublist_idempotent (f c p q : String) (ts : List Task) :
    (filteredTasks f c p q ts).Sublist ts ∧
      filteredTasks f c p q (filteredTasks f c p q ts) = filteredTasks f c p q ts := by
  constructor
  · exact List.filter_sublist ts
  · apply List.filter_eq_self.mpr
    intro a ha
    exact (List.mem_filter.mp ha).2

/-- C9: on a create-form submission that passes validation, a resolving
submit callback resets every field to its default (empty title and
description, category `"Personal"`, priority `"medium"`, due date the
current date) and clears the errors, while a rejecting callback leaves
every field exactly as entered. -/
theorem c9_submit_reset_on_resolve_keep_on_reject (today : String) (s : FormState)
    (h : formErrors s = []) :
    handleSubmit today true s = initialFormState today ∧
      (handleSubmit today false s).title = s.title ∧
      (handleSubmit today false s).description = s.description ∧
      (handleSubmit today false s).category = s.category ∧
      (handleSubmit today false s).priority = s.priority ∧
      (handleSubmit today false s).dueDate = s.dueDate ∧
      (handleSubmit today false s).errors = [] := by
  unfold handleSubmit
  simp [h]

/-- C9 (witness): a concrete valid form state resets on resolve and
keeps its fields on reject. -/
theorem c9_witness :
    handleSubmit "2025-10-11" true exFormState = initialFormState "2025-10-11" ∧
      (handleSubmit "2025-10-11" false exFormState).title = exFormState.title ∧
      (handleSubmit "2025-10-11" false exFormState).description = exFormState.description ∧
      (handleSubmit "2025-10-11" false exFormState).category = exFormState.category ∧
      (handleSubmit "2025-10-11" false exFormState).priority = exFormState.priority ∧
      (handleSubmit "2025-10-11" false exFormState).dueDate = exFormState.dueDate ∧
      (handleSubmit "2025-10-11" false exFormState).errors = [] :=
  c9_submit_reset_on_resolve_keep_on_reject "2025-10-11" exFormState (by decide)

/-- C10: the `useTasks` effect run for a `null` identity clears tasks
and loading but leaves the `error` field untouched, so a previous error
message persists across sign-out; the error is reset to `none` exactly
when the effect (re)subscribes for a non-null identity, and snapshot
deliveries preserve it. -/
theorem c10_error_persists_across_signout (s : TasksState) (uid : String)
    (docs : List Task) :
    (tasksEffect none s).1.error = s.error ∧
      (tasksEffect (some uid) s).1.error = none ∧
      (onSnapshotNext docs s).error = s.error :=
  ⟨rfl, rfl, rfl⟩

end TaskApp
